import Mathlib

/-!
Shallow embedding of the nested-relationship mutation resolver
(`resolveNested` and its helpers: `validateInput`, `cleanAndValidateInput`,
`_runActions`, `resolveNestedMany`, `resolveNestedSingle`).

Modelling choices:
* JS objects used as unique selectors / create data are modelled by `Obj`:
  an optional `id` field plus a list of other key/value pairs
  (`Object.keys(o).length` is nonzero iff `o.hasKeys`).
* Identifiers are `Nat`; `toString` on an identifier is the identity in the
  model (identifiers are kept canonical).
* The collaborator list (`refList`) is a record of pure functions; a promise
  that resolves to `v` is `Except.ok v`, a rejected promise is
  `Except.error e` with an opaque reason `Err := String`.
  `itemQuery` receives either a whole selector object (disconnect lookups)
  or a bare optional id (`where.id`, connect lookups), modelled by `Query`.
* `throwWithErrors({message, errors})` becomes returning
  `Except.error (WrappedError.mk message errors)`; `{...reason, path}`
  becomes `TaggedErr.mk reason path`.
* The JS result object, whose `connect` / `disconnect` keys may be absent,
  is `ResolutionResult` with `Option (List Id)` fields (`none` = key absent).
* Truthiness: an `id` field is truthy iff present (`Option.isSome`);
  `input.disconnectAll` is truthy iff it is `some true`; an array value is
  truthy iff present.
-/

set_option autoImplicit false

instance {ε α : Type} [DecidableEq ε] [DecidableEq α] : DecidableEq (Except ε α) :=
  fun x y =>
    match x, y with
    | .ok a, .ok b =>
        if h : a = b then .isTrue (by rw [h])
        else .isFalse (fun h2 => absurd (Except.ok.inj h2) h)
    | .error a, .error b =>
        if h : a = b then .isTrue (by rw [h])
        else .isFalse (fun h2 => absurd (Except.error.inj h2) h)
    | .ok _, .error _ => .isFalse (fun h2 => Except.noConfusion h2)
    | .error _, .ok _ => .isFalse (fun h2 => Except.noConfusion h2)

abbrev Id' := Nat

abbrev Err := String

/-- An item returned by the collaborator; only its `id` is consumed. -/
structure Item where
  id : Id'
  deriving DecidableEq, Repr

/-- A JS object used as a unique selector or as create data: an optional
`id` key plus the remaining key/value pairs. -/
structure Obj where
  id : Option Id' := none
  fields : List (String × String) := []
  deriving DecidableEq, Repr

/-- `Object.keys(o).length !== 0`. -/
def Obj.hasKeys (o : Obj) : Bool :=
  o.id.isSome || !o.fields.isEmpty

/-- The first argument of `refList.itemQuery`: the disconnect path passes the
whole selector object, the connect paths pass `where.id` (possibly absent). -/
inductive Query where
  | byWhere (w : Obj)
  | byId (i : Option Id')
  deriving DecidableEq, Repr

/-- `localField`: only its `path` is consumed. -/
structure LocalField where
  path : String
  deriving DecidableEq, Repr

/-- The external collaborator list (`refList`): access-controlled lookup and
create, plus the metadata the resolver reads (`key`,
`gqlNames.itemQueryName`).  `Ctx` is the opaque request context and
`MState` the opaque per-mutation correlation object. -/
structure RefList (Ctx MState : Type) where
  key : String
  itemQueryName : String
  itemQuery : Query → Ctx → String → Except Err (Option Item)
  createMutation : Obj → Ctx → MState → Except Err Item

/-- One segment of an error-attribution path: a field-path / operation-name
string or a positional index. -/
inductive PathSeg where
  | str (s : String)
  | idx (n : Nat)
  deriving DecidableEq, Repr

/-- `{ ...reason, path }`: an underlying failure tagged with its path. -/
structure TaggedErr where
  reason : Err
  path : List PathSeg
  deriving DecidableEq, Repr

/-- The error thrown by `throwWithErrors`: a message plus the structured
error list. -/
structure WrappedError where
  message : String
  errors : List TaggedErr
  deriving DecidableEq, Repr

/-- `{ disconnect: [...], connect: [...] }`; a `none` field models an absent
key (the single resolver may omit either). -/
structure ResolutionResult where
  disconnect : Option (List Id') := none
  connect : Option (List Id') := none
  deriving DecidableEq, Repr

/-- The four recognized nested-mutation keys. -/
inductive MutKey where
  | create
  | connect
  | disconnect
  | disconnectAll
  deriving DecidableEq, Repr

def MutKey.name : MutKey → String
  | .create => "create"
  | .connect => "connect"
  | .disconnect => "disconnect"
  | .disconnectAll => "disconnectAll"

/-- `NESTED_MUTATIONS`: the fixed operation vocabulary, in source order. -/
def NESTED_MUTATIONS : List MutKey :=
  [.create, .connect, .disconnect, .disconnectAll]

/-- A to-many nested-mutation input: each recognized key is either absent
(`none`) or present with its value.  Unknown keys are dropped by
`intersection(Object.keys(input), NESTED_MUTATIONS)` and can never be
observed, so they are not represented. -/
structure ManyInput where
  create : Option (List Obj) := none
  connect : Option (List Obj) := none
  disconnect : Option (List Obj) := none
  disconnectAll : Option Bool := none
  deriving DecidableEq, Repr

/-- A to-one nested-mutation input. -/
structure SingleInput where
  create : Option Obj := none
  connect : Option Obj := none
  disconnect : Option Obj := none
  disconnectAll : Option Bool := none
  deriving DecidableEq, Repr

def ManyInput.opValue (i : ManyInput) : MutKey → Option (List Obj)
  | .create => i.create
  | .connect => i.connect
  | .disconnect => i.disconnect
  | .disconnectAll => none

/-- Whether a recognized key occurs in `Object.keys(input)`. -/
def ManyInput.keyPresent (i : ManyInput) : MutKey → Bool
  | .disconnectAll => i.disconnectAll.isSome
  | k => (i.opValue k).isSome

def SingleInput.opValue (i : SingleInput) : MutKey → Option Obj
  | .create => i.create
  | .connect => i.connect
  | .disconnect => i.disconnect
  | .disconnectAll => none

def SingleInput.keyPresent (i : SingleInput) : MutKey → Bool
  | .disconnectAll => i.disconnectAll.isSome
  | k => (i.opValue k).isSome

/-- `validateInput`, many branch, up to the emptiness check: the recognized
keys whose values pass the to-many filter (`disconnectAll` passes on
presence alone; the others need an array with at least one item that has at
least one key). -/
def validMutationsMany (input : ManyInput) : List MutKey :=
  (NESTED_MUTATIONS.filter input.keyPresent).filter fun mutation =>
    mutation = MutKey.disconnectAll ||
      match input.opValue mutation with
      | some l => !(l.filter Obj.hasKeys).isEmpty
      | none => false

/-- `validateInput`, single branch filter: the other operations need a value
with at least one key. -/
def validMutationsSingle (input : SingleInput) : List MutKey :=
  (NESTED_MUTATIONS.filter input.keyPresent).filter fun mutation =>
    mutation = MutKey.disconnectAll ||
      match input.opValue mutation with
      | some o => o.hasKeys
      | none => false

/-- The `ParameterError` message for an empty valid-operation set. -/
def missingMsg (target : String) : String :=
  "Must provide a nested mutation (" ++
    String.intercalate ", " (NESTED_MUTATIONS.map MutKey.name) ++
    ") when mutating " ++ target

/-- The `ParameterError` message for `create` + `connect` on a to-one input. -/
def conflictMsg (target : String) : String :=
  "Can only provide one of \x27connect\x27 or \x27create\x27 when mutating " ++ target

/-- `validateInput` with `many = true`: returns the valid mutation keys or
the thrown `ParameterError` message. -/
def validateInputMany (input : ManyInput) (target : String) :
    Except Err (List MutKey) :=
  let valid := validMutationsMany input
  if valid.isEmpty then .error (missingMsg target)
  else .ok valid

/-- `validateInput` with `many = false`: additionally rejects simultaneous
`create` and `connect`. -/
def validateInputSingle (input : SingleInput) (target : String) :
    Except Err (List MutKey) :=
  let valid := validMutationsSingle input
  if valid.isEmpty then .error (missingMsg target)
  else if MutKey.create ∈ valid ∧ MutKey.connect ∈ valid then
    .error (conflictMsg target)
  else .ok valid

/-- `pick(input, keys)` for a to-many input. -/
def pickMany (input : ManyInput) (keys : List MutKey) : ManyInput where
  create := if MutKey.create ∈ keys then input.create else none
  connect := if MutKey.connect ∈ keys then input.connect else none
  disconnect := if MutKey.disconnect ∈ keys then input.disconnect else none
  disconnectAll := if MutKey.disconnectAll ∈ keys then input.disconnectAll else none

/-- `pick(input, keys)` for a to-one input. -/
def pickSingle (input : SingleInput) (keys : List MutKey) : SingleInput where
  create := if MutKey.create ∈ keys then input.create else none
  connect := if MutKey.connect ∈ keys then input.connect else none
  disconnect := if MutKey.disconnect ∈ keys then input.disconnect else none
  disconnectAll := if MutKey.disconnectAll ∈ keys then input.disconnectAll else none

/-- `cleanAndValidateInput` (many): prune the input to its valid keys, or
wrap the validation error with path `[localField.path]`. -/
def cleanAndValidateMany (input : ManyInput) (localFieldPath target : String) :
    Except WrappedError ManyInput :=
  match validateInputMany input target with
  | .ok keys => .ok (pickMany input keys)
  | .error msg =>
      .error ⟨"Nested mutation operation invalid for " ++ target,
              [⟨msg, [.str localFieldPath]⟩]⟩

/-- `cleanAndValidateInput` (single). -/
def cleanAndValidateSingle (input : SingleInput) (localFieldPath target : String) :
    Except WrappedError SingleInput :=
  match validateInputSingle input target with
  | .ok keys => .ok (pickSingle input keys)
  | .error msg =>
      .error ⟨"Nested mutation operation invalid for " ++ target,
              [⟨msg, [.str localFieldPath]⟩]⟩

/-- The error entries extracted from a settled batch: every rejected outcome,
tagged with `path ++ [index]` where `index` is its position in the batch
(`results.map((settleInfo, index) => ...).filter(isRejected).map(...)`). -/
def settleErrors {β : Type} (results : List (Except Err β)) (path : List PathSeg) :
    List TaggedErr :=
  results.enum.filterMap fun p =>
    match p.2 with
    | .error e => some ⟨e, path ++ [.idx p.1]⟩
    | .ok _ => none

/-- `_runActions(action, targets, path)`: run the batch with all-settled
semantics, returning `[values, errors]`; the value list is emptied when any
error occurred.  (In the source the first component is
`results.map(({value}) => value)`, taken only when `errors` is empty, where
every result is fulfilled; `filterMap Except.toOption` coincides with it
there.) -/
def _runActions {α β : Type} (action : α → Except Err β)
    (targets : Option (List α)) (path : List PathSeg) :
    List β × List TaggedErr :=
  let results := (targets.getD []).map action
  let errors := settleErrors results path
  (if errors.isEmpty then results.filterMap Except.toOption else [], errors)

/-- The per-call bundle handed to `resolveNestedMany`. -/
structure ManyCtx (Ctx MState : Type) where
  input : ManyInput
  currentValue : List Id'
  refList : RefList Ctx MState
  context : Ctx
  localField : LocalField
  target : String
  mutationState : MState

/-- The per-call bundle handed to `resolveNestedSingle`. -/
structure SingleCtx (Ctx MState : Type) where
  input : SingleInput
  currentValue : Option Id'
  localField : LocalField
  refList : RefList Ctx MState
  context : Ctx
  target : String
  mutationState : MState

/-- The disconnection stage of `resolveNestedMany`: `disconnectAll` copies
the whole current value set; otherwise a present `disconnect` list is split
on `id`-presence, identified selectors contribute their id directly, the
rest are looked up with all-settled semantics, dropping rejections and null
results. -/
def manyDisconnectIds {Ctx MState : Type} (a : ManyCtx Ctx MState) : List Id' :=
  if a.input.disconnectAll.getD false then a.currentValue
  else
    match a.input.disconnect with
    | some sels =>
        let withId := sels.filter fun s => s.id.isSome
        let withoutId := sels.filter fun s => !s.id.isSome
        let direct := withId.filterMap Obj.id
        let disconnectItems :=
          ((withoutId.map fun w =>
              a.refList.itemQuery (.byWhere w) a.context a.refList.itemQueryName)
            |>.filterMap Except.toOption)
            |>.filterMap id
        direct ++ disconnectItems.map Item.id
    | none => []

/-- The action run for each `connect` selector:
`refList.itemQuery(where.id, context, refList.gqlNames.itemQueryName)`. -/
def manyConnectAction {Ctx MState : Type} (a : ManyCtx Ctx MState) :
    Obj → Except Err (Option Item) :=
  fun w => a.refList.itemQuery (.byId w.id) a.context a.refList.itemQueryName

/-- The action run for each `create` item:
`refList.createMutation(data, context, mutationState)`. -/
def manyCreateAction {Ctx MState : Type} (a : ManyCtx Ctx MState) :
    Obj → Except Err Item :=
  fun d => a.refList.createMutation d a.context a.mutationState

/-- The two settled batches of the connection stage. -/
def manyConnectSettled {Ctx MState : Type} (a : ManyCtx Ctx MState) :
    (List (Option Item) × List TaggedErr) × (List Item × List TaggedErr) :=
  (_runActions (manyConnectAction a) a.input.connect
      [.str a.localField.path, .str "connect"],
   _runActions (manyCreateAction a) a.input.create
      [.str a.localField.path, .str "create"])

/-- `connectErrors ++ createErrors` of the connection stage. -/
def manyConnectErrors {Ctx MState : Type} (a : ManyCtx Ctx MState) : List TaggedErr :=
  (manyConnectSettled a).1.2 ++ (manyConnectSettled a).2.2

/-- The connection stage of `resolveNestedMany`: merge looked-up and created
items (dropping null lookup results), fail with the aggregated error list
when any sub-operation was rejected. -/
def manyConnectPhase {Ctx MState : Type} (a : ManyCtx Ctx MState) :
    Except WrappedError (List Id') :=
  if a.input.connect.isSome || a.input.create.isSome then
    let s := manyConnectSettled a
    let allConnectedIds := ((s.1.1.filterMap id) ++ s.2.1).map Item.id
    let allErrors := s.1.2 ++ s.2.2
    if allErrors.isEmpty then .ok allConnectedIds
    else
      .error ⟨"Unable to create and/or connect " ++ toString allErrors.length ++
                " " ++ a.target,
              allErrors⟩
  else .ok []

/-- `resolveNestedMany`. -/
def resolveNestedMany {Ctx MState : Type} (a : ManyCtx Ctx MState) :
    Except WrappedError ResolutionResult :=
  let disconnectIds := manyDisconnectIds a
  match manyConnectPhase a with
  | .error e => .error e
  | .ok allConnectedIds => .ok ⟨some disconnectIds, some allConnectedIds⟩

/-- The `idToDisconnect` computed by `resolveNestedSingle` inside the
disconnection branch: the current value under `disconnectAll`, a present
`disconnect.id` directly, otherwise a lookup by the whole selector whose
rejection or null result leaves it unset. -/
def singleIdToDisconnect {Ctx MState : Type} (a : SingleCtx Ctx MState) : Option Id' :=
  if a.input.disconnectAll.getD false then a.currentValue
  else
    match a.input.disconnect with
    | some d =>
        match d.id with
        | some i => some i
        | none =>
            match a.refList.itemQuery (.byWhere d) a.context a.refList.itemQueryName with
            | .ok (some item) => some item.id
            | _ => none
    | none => none

/-- The disconnection stage of `resolveNestedSingle`: entered only when a
disconnect intent and a current value are present; the resolved identifier
is kept only when it equals the current value. -/
def singleDisconnectResult {Ctx MState : Type} (a : SingleCtx Ctx MState) :
    Option (List Id') :=
  if (a.input.disconnect.isSome || a.input.disconnectAll.getD false)
      && a.currentValue.isSome then
    match a.currentValue, singleIdToDisconnect a with
    | some cv, some i => if cv = i then some [i] else none
    | _, _ => none
  else none

/-- `resolveNestedSingle`. -/
def resolveNestedSingle {Ctx MState : Type} (a : SingleCtx Ctx MState) :
    Except WrappedError ResolutionResult :=
  let disc := singleDisconnectResult a
  match a.input.connect with
  | some c =>
      match a.refList.itemQuery (.byId c.id) a.context a.refList.itemQueryName with
      | .error e =>
          .error ⟨"Unable to connect a " ++ a.target,
                  [⟨e, [.str a.localField.path, .str "connect"]⟩]⟩
      | .ok none => .ok ⟨disc, none⟩
      | .ok (some item) => .ok ⟨disc, some [item.id]⟩
  | none =>
      match a.input.create with
      | some d =>
          match a.refList.createMutation d a.context a.mutationState with
          | .error e =>
              .error ⟨"Unable to create a " ++ a.target,
                      [⟨e, [.str a.localField.path, .str "create"]⟩]⟩
          | .ok item => .ok ⟨disc, some [item.id]⟩
      | none => .ok ⟨disc, none⟩

/-- `listInfo`, flattened: `local.list.key`, `local.field`, `foreign.list`. -/
structure ListInfo (Ctx MState : Type) where
  localListKey : String
  localField : LocalField
  refList : RefList Ctx MState

/-- The dynamic payload of `resolveNested`: the `many` flag selects the
shape of `input` and `currentValue`. -/
inductive NestedArgs (Ctx MState : Type) where
  | many (input : ManyInput) (currentValue : List Id')
  | single (input : SingleInput) (currentValue : Option Id')

/-- The `target` label: `<localList.key>.<localField.path><<refList.key>>`. -/
def targetLabel {Ctx MState : Type} (listInfo : ListInfo Ctx MState) : String :=
  listInfo.localListKey ++ "." ++ listInfo.localField.path ++ "<" ++
    listInfo.refList.key ++ ">"

/-- `resolveNested`: derive the target label, validate and prune the input,
then dispatch on cardinality. -/
def resolveNested {Ctx MState : Type} (listInfo : ListInfo Ctx MState)
    (context : Ctx) (mutationState : MState) (args : NestedArgs Ctx MState) :
    Except WrappedError ResolutionResult :=
  let localField := listInfo.localField
  let refList := listInfo.refList
  let target := targetLabel listInfo
  match args with
  | .many input currentValue =>
      match cleanAndValidateMany input localField.path target with
      | .error e => .error e
      | .ok input2 =>
          resolveNestedMany
            ⟨input2, currentValue, refList, context, localField, target, mutationState⟩
  | .single input currentValue =>
      match cleanAndValidateSingle input localField.path target with
      | .error e => .error e
      | .ok input2 =>
          resolveNestedSingle
            ⟨input2, currentValue, localField, refList, context, target, mutationState⟩

/-- Definition following the words of the spec for the to-many disconnect
branch without `disconnectAll` (modelled from the spec, §4.2 Disconnection):
selectors carrying an id contribute it directly with no lookup; the
remaining selectors are each looked up via the collaborator, failed lookups
and null results are silently dropped; every successfully resolved
identifier is included regardless of current-value membership. -/
def specManyDisconnectIds (sels : List Obj) (lookup : Obj → Except Err (Option Item)) :
    List Id' :=
  ((sels.filter fun s => s.id.isSome).filterMap Obj.id) ++
    ((sels.filter fun s => !s.id.isSome).filterMap fun s =>
      match lookup s with
      | .ok (some item) => some item.id
      | _ => none)

/-- Structural recursion with an explicit position counter: one tagged error
entry per failing sub-operation, in input order. -/
def tagFailures {α β : Type} (action : α → Except Err β) :
    List α → List PathSeg → Nat → List TaggedErr
  | [], _, _ => []
  | t :: rest, base, k =>
      (match action t with
       | .error e => [⟨e, base ++ [.idx k]⟩]
       | .ok _ => []) ++ tagFailures action rest base (k + 1)

/-- The disconnect set of a successful resolution outcome. -/
def resDisconnect (r : Except WrappedError ResolutionResult) : List Id' :=
  match r with
  | .ok v => v.disconnect.getD []
  | .error _ => []

/-- The connect set of a successful resolution outcome. -/
def resConnect (r : Except WrappedError ResolutionResult) : List Id' :=
  match r with
  | .ok v => v.connect.getD []
  | .error _ => []

/-! ## Concrete fixtures for witnesses and counterexamples -/

/-- A collaborator over trivial context/state, built from pure tables. -/
def mkRefList (iq : Query → Except Err (Option Item)) (cm : Obj → Except Err Item) :
    RefList Unit Unit :=
  ⟨"B", "allBs", fun q _ _ => iq q, fun d _ _ => cm d⟩

def exCtx7 : ManyCtx Unit Unit :=
  ⟨{ disconnect := some [{ id := some 9 }], disconnectAll := some true },
   [1, 2], mkRefList (fun _ => .ok none) (fun _ => .error "no"), (), ⟨"f"⟩, "T", ()⟩

def exSingle5 : SingleInput :=
  { create := some { fields := [("name", "a")] }, connect := some { id := some 3 } }

def exMany5 : ManyInput :=
  { create := some [{ fields := [("name", "a")] }], connect := some [{ id := some 3 }] }

def exListInfo : ListInfo Unit Unit :=
  ⟨"A", ⟨"f"⟩, ⟨"B", "allBs", fun _ _ _ => .ok none, fun _ _ _ => .ok ⟨1⟩⟩⟩

def exCtx1 : ManyCtx Unit Unit :=
  ⟨{ connect := some [{ id := some 5 }, { id := some 6 }] }, [],
   mkRefList
     (fun q =>
       match q with
       | .byId (some 5) => .ok (some ⟨5⟩)
       | .byId (some 6) => .error "boom"
       | _ => .ok none)
     (fun _ => .error "no"),
   (), ⟨"f"⟩, "T", ()⟩

def exListInfo2 : ListInfo Unit Unit :=
  ⟨"A", ⟨"f"⟩, ⟨"B", "allBs", fun _ _ _ => .ok (some ⟨1⟩), fun _ _ _ => .error "no"⟩⟩

def exCtx2a : ManyCtx Unit Unit :=
  ⟨{ disconnectAll := some true }, [1],
   mkRefList (fun _ => .ok none) (fun _ => .error "no"), (), ⟨"f"⟩, "T", ()⟩

def exCtx2b : SingleCtx Unit Unit :=
  ⟨{ disconnectAll := some true }, some 1, ⟨"f"⟩,
   mkRefList (fun _ => .ok none) (fun _ => .error "no"), (), "T", ()⟩

def exCtx3 : ManyCtx Unit Unit :=
  ⟨{ disconnect := some [{ id := some 2 }, { fields := [("name", "x")] }] }, [1, 2, 3],
   mkRefList
     (fun q =>
       match q with
       | .byWhere w => if w.fields = [("name", "x")] then .ok (some ⟨4⟩) else .ok none
       | .byId _ => .ok none)
     (fun _ => .error "no"),
   (), ⟨"f"⟩, "T", ()⟩

def exCtx4 : SingleCtx Unit Unit :=
  ⟨{ disconnect := some { fields := [("name", "x")] } }, some 1, ⟨"f"⟩,
   mkRefList (fun _ => .ok (some ⟨2⟩)) (fun _ => .error "no"), (), "T", ()⟩

/-- A lookup action failing exactly on the selector with id 6. -/
def exAct6 : Obj → Except Err (Option Item) := fun w =>
  match w.id with
  | some 6 => .error "boom"
  | some i => .ok (some ⟨i⟩)
  | none => .ok none

def exCtx9 : SingleCtx Unit Unit :=
  ⟨{ connect := some { id := some 5 } }, none, ⟨"f"⟩,
   mkRefList (fun _ => .error "boom") (fun _ => .ok ⟨9⟩), (), "T", ()⟩

def exCtx9b : SingleCtx Unit Unit :=
  ⟨{ create := some { fields := [("name", "Bob")] } }, none, ⟨"f"⟩,
   mkRefList (fun _ => .ok none) (fun _ => .ok ⟨99⟩), (), "T", ()⟩

example : validMutationsMany { disconnectAll := some false } = [.disconnectAll] := by decide

/-! ## Helper lemmas -/

theorem validateInputMany_ok_of_mem {input : ManyInput} {k : MutKey} {target : String}
    (h : k ∈ validMutationsMany input) :
    validateInputMany input target = .ok (validMutationsMany input) := by
  have hne : validMutationsMany input ≠ [] := List.ne_nil_of_mem h
  unfold validateInputMany
  rw [if_neg]
  simpa using hne

theorem manyConnectPhase_none {Ctx MState : Type} {a : ManyCtx Ctx MState}
    (hcn : a.input.connect = none) (hcr : a.input.create = none) :
    manyConnectPhase a = .ok [] := by
  unfold manyConnectPhase
  rw [if_neg]
  rw [hcn, hcr]
  simp

theorem lookupChain_eq {l : List Obj} {act : Obj → Except Err (Option Item)} :
    (((l.map act).filterMap Except.toOption).filterMap id).map Item.id
      = l.filterMap fun s =>
          match act s with
          | .ok (some item) => some item.id
          | _ => none := by
  induction l with
  | nil => rfl
  | cons x xs ih =>
      cases hx : act x with
      | error e =>
          simpa [List.filterMap_cons, List.filterMap_map, Function.comp, hx,
            Except.toOption] using ih
      | ok v =>
          cases v with
          | none =>
              simpa [List.filterMap_cons, List.filterMap_map, Function.comp, hx,
                Except.toOption] using ih
          | some it =>
              simpa [List.filterMap_cons, List.filterMap_map, Function.comp, hx,
                Except.toOption] using ih

/-! ## Claims -/

/-- C10: an input whose only recognized key is `disconnectAll` with value
`false` passes validation (the validator checks only key presence for
`disconnectAll`), and the subsequent to-many resolution returns the empty
delta without consulting the collaborator (the result is the same for every
`refList`), rather than failing with the MissingOperation error. -/
theorem C10_falsy_disconnectAll_accepted {Ctx MState : Type}
    (listInfo : ListInfo Ctx MState) (context : Ctx) (mutationState : MState)
    (currentValue : List Id') :
    validateInputMany { disconnectAll := some false } (targetLabel listInfo)
        = .ok [MutKey.disconnectAll]
      ∧ resolveNested listInfo context mutationState
          (.many { disconnectAll := some false } currentValue)
        = .ok ⟨some [], some []⟩ :=
  ⟨rfl, rfl⟩

/-- C7: with `disconnectAll` truthy, the many-resolver disconnect set is the
entire current value set, the result is unchanged by the `disconnect` key
(no disconnect selector is consulted), and every successful result carries
exactly the full current value set as its disconnect set. -/
theorem C7_disconnectAll_full_current {Ctx MState : Type} (a : ManyCtx Ctx MState)
    (h : a.input.disconnectAll.getD false = true) :
    manyDisconnectIds a = a.currentValue
      ∧ (∀ d2 : Option (List Obj),
          resolveNestedMany { a with input := { a.input with disconnect := d2 } }
            = resolveNestedMany a)
      ∧ (∀ r : ResolutionResult, resolveNestedMany a = .ok r →
          r.disconnect = some a.currentValue) := by
  obtain ⟨⟨ic, ik, idp, ida⟩, cv, rl, ctx, lf, tg, ms⟩ := a
  simp only at h
  refine ⟨?_, ?_, ?_⟩
  · simp [manyDisconnectIds, h]
  · intro d2
    simp only [resolveNestedMany, manyDisconnectIds, manyConnectPhase,
      manyConnectSettled, manyConnectAction, manyCreateAction, h, if_true]
    rfl
  · intro r hr
    unfold resolveNestedMany at hr
    cases hph : manyConnectPhase ⟨⟨ic, ik, idp, ida⟩, cv, rl, ctx, lf, tg, ms⟩ with
    | error e => rw [hph] at hr; exact absurd hr (by simp)
    | ok v =>
        rw [hph] at hr
        have := Except.ok.inj hr
        subst this
        simp [manyDisconnectIds, h]

/-- C5: a to-one input on which both `create` and `connect` survive the
validation filter fails with the ConflictingOperations error, while a
to-many input with the same combination (both lists containing an item with
at least one key) is accepted. -/
theorem C5_conflict_single_only
    (si : SingleInput) (mi : ManyInput) (t1 t2 : String)
    (c k : Obj) (hc : si.create = some c) (hck : c.hasKeys = true)
    (hk : si.connect = some k) (hkk : k.hasKeys = true)
    (cl kl : List Obj) (hmc : mi.create = some cl)
    (hmck : (cl.filter Obj.hasKeys).isEmpty = false)
    (hmk : mi.connect = some kl)
    (hmkk : (kl.filter Obj.hasKeys).isEmpty = false) :
    validateInputSingle si t1 = .error (conflictMsg t1)
      ∧ validateInputMany mi t2 = .ok (validMutationsMany mi) := by
  constructor
  · obtain ⟨sc, sk, sd, sa⟩ := si
    simp only at hc hk
    subst hc hk
    simp [validateInputSingle, validMutationsSingle, NESTED_MUTATIONS,
      SingleInput.keyPresent, SingleInput.opValue, hck, hkk]
  · refine validateInputMany_ok_of_mem (k := MutKey.create) ?_
    simp [validMutationsMany, NESTED_MUTATIONS, List.mem_filter,
      ManyInput.keyPresent, ManyInput.opValue, hmc, hmck]

/-- C8: when the filtered valid-operation set is empty, `resolveNested`
fails (for either cardinality) with the wrapped MissingOperation error whose
inner message names the target and enumerates the four operation names,
tagged with path `[localField.path]`; the outcome is identical for every
collaborator lookup/create implementation (no I/O is performed). -/
theorem C8_missing_operation {Ctx MState : Type} (listInfo : ListInfo Ctx MState)
    (context : Ctx) (mutationState : MState) (mi : ManyInput) (cvm : List Id')
    (si : SingleInput) (cvs : Option Id')
    (hm : validMutationsMany mi = []) (hs : validMutationsSingle si = []) :
    resolveNested listInfo context mutationState (.many mi cvm)
        = .error ⟨"Nested mutation operation invalid for " ++ targetLabel listInfo,
                  [⟨missingMsg (targetLabel listInfo), [.str listInfo.localField.path]⟩]⟩
      ∧ resolveNested listInfo context mutationState (.single si cvs)
        = .error ⟨"Nested mutation operation invalid for " ++ targetLabel listInfo,
                  [⟨missingMsg (targetLabel listInfo), [.str listInfo.localField.path]⟩]⟩
      ∧ missingMsg (targetLabel listInfo)
        = "Must provide a nested mutation (create, connect, disconnect, disconnectAll) when mutating "
            ++ targetLabel listInfo
      ∧ (∀ (iq : Query → Ctx → String → Except Err (Option Item))
           (cm : Obj → Ctx → MState → Except Err Item),
          resolveNested
              { listInfo with refList :=
                  { listInfo.refList with itemQuery := iq, createMutation := cm } }
              context mutationState (.many mi cvm)
            = resolveNested listInfo context mutationState (.many mi cvm)) := by
  obtain ⟨llk, lf, key, iqn, iq0, cm0⟩ := listInfo
  refine ⟨?_, ?_, ?_, ?_⟩
  · simp [resolveNested, cleanAndValidateMany, validateInputMany, hm, targetLabel]
  · simp [resolveNested, cleanAndValidateSingle, validateInputSingle, hs, targetLabel]
  · rfl
  · intro iq cm
    simp [resolveNested, cleanAndValidateMany, validateInputMany, hm, targetLabel]

theorem C7_witness :
    manyDisconnectIds exCtx7 = [1, 2]
      ∧ resolveNestedMany { exCtx7 with input := { exCtx7.input with disconnect := none } }
          = resolveNestedMany exCtx7
      ∧ (ResolutionResult.mk (some [1, 2]) (some [])).disconnect = some [1, 2] :=
  ⟨(C7_disconnectAll_full_current exCtx7 rfl).1,
   (C7_disconnectAll_full_current exCtx7 rfl).2.1 none,
   (C7_disconnectAll_full_current exCtx7 rfl).2.2 ⟨some [1, 2], some []⟩ (by decide)⟩

theorem C5_witness :
    validateInputSingle exSingle5 "T" = .error (conflictMsg "T")
      ∧ validateInputMany exMany5 "T" = .ok [MutKey.create, MutKey.connect] :=
  ⟨(C5_conflict_single_only exSingle5 exMany5 "T" "T" _ _ rfl rfl rfl rfl
      _ _ rfl rfl rfl rfl).1,
   ((C5_conflict_single_only exSingle5 exMany5 "T" "T" _ _ rfl rfl rfl rfl
      _ _ rfl rfl rfl rfl).2).trans (by decide)⟩

theorem C8_witness :
    resolveNested exListInfo () () (.many {} [5])
        = .error ⟨"Nested mutation operation invalid for A.f<B>",
                  [⟨"Must provide a nested mutation (create, connect, disconnect, disconnectAll) when mutating A.f<B>",
                    [.str "f"]⟩]⟩
      ∧ resolveNested exListInfo () () (.single {} (some 5))
        = .error ⟨"Nested mutation operation invalid for A.f<B>",
                  [⟨"Must provide a nested mutation (create, connect, disconnect, disconnectAll) when mutating A.f<B>",
                    [.str "f"]⟩]⟩
      ∧ resolveNested
            { exListInfo with refList :=
                { exListInfo.refList with itemQuery := fun _ _ _ => .error "x",
                                          createMutation := fun _ _ _ => .error "y" } }
            () () (.many {} [5])
          = resolveNested exListInfo () () (.many {} [5]) :=
  ⟨((C8_missing_operation exListInfo () () {} [5] {} (some 5) rfl rfl).1).trans (by decide),
   ((C8_missing_operation exListInfo () () {} [5] {} (some 5) rfl rfl).2.1).trans (by decide),
   (C8_missing_operation exListInfo () () {} [5] {} (some 5) rfl rfl).2.2.2
     (fun _ _ _ => .error "x") (fun _ _ _ => .error "y")⟩

example :
    validateInputSingle { create := some { fields := [("a", "b")] },
                          connect := some { id := some 1 } } "T"
      = .error (conflictMsg "T") := by decide

/-- C1: in a to-many resolution, if any connect lookup or create
sub-operation was rejected, `resolveNestedMany` throws the
NestedMutationError whose message counts the failures
(`Unable to create and/or connect N <target>`) and which carries the
complete aggregated error list; every successful return implies that no
sub-operation failed (never a partial connect set), and a pass with no
connect/create operation — disconnect resolution — always succeeds. -/
theorem C1_many_all_or_nothing {Ctx MState : Type} (a : ManyCtx Ctx MState) :
    (manyConnectErrors a ≠ [] →
       resolveNestedMany a
         = .error ⟨"Unable to create and/or connect "
                     ++ toString (manyConnectErrors a).length ++ " " ++ a.target,
                   manyConnectErrors a⟩)
      ∧ (∀ r : ResolutionResult, resolveNestedMany a = .ok r →
          manyConnectErrors a = []
            ∧ r.disconnect = some (manyDisconnectIds a)
            ∧ r.connect = some ((((manyConnectSettled a).1.1.filterMap id)
                                  ++ (manyConnectSettled a).2.1).map Item.id))
      ∧ (a.input.connect = none → a.input.create = none →
          resolveNestedMany a = .ok ⟨some (manyDisconnectIds a), some []⟩) := by
  have hE : manyConnectErrors a
      = (manyConnectSettled a).1.2 ++ (manyConnectSettled a).2.2 := rfl
  by_cases hg : (a.input.connect.isSome || a.input.create.isSome) = true
  · by_cases he : manyConnectErrors a = []
    · have hemp : ((manyConnectSettled a).1.2 ++ (manyConnectSettled a).2.2).isEmpty
          = true := by
        rw [← hE, he]; rfl
      have hph : manyConnectPhase a
          = .ok ((((manyConnectSettled a).1.1.filterMap id)
                    ++ (manyConnectSettled a).2.1).map Item.id) := by
        unfold manyConnectPhase
        rw [if_pos hg, if_pos hemp]
      refine ⟨fun hne => absurd he hne, ?_, ?_⟩
      · intro r hr
        unfold resolveNestedMany at hr
        rw [hph] at hr
        have := Except.ok.inj hr
        subst this
        exact ⟨he, rfl, rfl⟩
      · intro hcn hcr
        rw [hcn, hcr] at hg
        simp at hg
    · have hemp : ((manyConnectSettled a).1.2 ++ (manyConnectSettled a).2.2).isEmpty
          = false := by
        cases hq : manyConnectErrors a with
        | nil => exact absurd hq he
        | cons x xs => rw [← hE, hq]; rfl
      have hph : manyConnectPhase a
          = .error ⟨"Unable to create and/or connect "
                      ++ toString (manyConnectErrors a).length ++ " " ++ a.target,
                    manyConnectErrors a⟩ := by
        unfold manyConnectPhase
        rw [if_pos hg, if_neg (by rw [hemp]; exact Bool.false_ne_true), hE]
      refine ⟨fun _ => ?_, ?_, ?_⟩
      · unfold resolveNestedMany
        rw [hph]
      · intro r hr
        unfold resolveNestedMany at hr
        rw [hph] at hr
        exact absurd hr (by simp)
      · intro hcn hcr
        rw [hcn, hcr] at hg
        simp at hg
  · have hcn : a.input.connect = none := by
      cases hc : a.input.connect with
      | none => rfl
      | some l => rw [hc] at hg; simp at hg
    have hcr : a.input.create = none := by
      cases hc : a.input.create with
      | none => rfl
      | some l => rw [hc] at hg; simp at hg
    have hE0 : manyConnectErrors a = [] := by
      simp [manyConnectErrors, manyConnectSettled, _runActions, settleErrors, hcn, hcr]
    have hph : manyConnectPhase a = .ok [] := manyConnectPhase_none hcn hcr
    have hV : ((((manyConnectSettled a).1.1.filterMap id)
                 ++ (manyConnectSettled a).2.1).map Item.id) = [] := by
      simp [manyConnectSettled, _runActions, settleErrors, hcn, hcr]
    refine ⟨fun hne => absurd hE0 hne, ?_, ?_⟩
    · intro r hr
      unfold resolveNestedMany at hr
      rw [hph] at hr
      have := Except.ok.inj hr
      subst this
      exact ⟨hE0, rfl, by rw [hV]⟩
    · intro _ _
      unfold resolveNestedMany
      rw [hph]

theorem C1_witness :
    manyConnectErrors exCtx1 ≠ []
      ∧ resolveNestedMany exCtx1
          = .error ⟨"Unable to create and/or connect "
                      ++ toString (manyConnectErrors exCtx1).length ++ " " ++ exCtx1.target,
                    manyConnectErrors exCtx1⟩ :=
  ⟨by decide, (C1_many_all_or_nothing exCtx1).1 (by decide)⟩

/-- C2 counterexample: the claimed invariant — no identifier of the
disconnect set simultaneously in the connect set of the same pass — fails
on the code: a validation-stable to-many input combining
`disconnectAll: true` with `connect: [{id: 1}]` over current value `{1}`
resolves (through the full orchestrator) to `{disconnect: [1], connect: [1]}`,
with identifier 1 in both sets. -/
theorem C2_counterexample :
    resolveNested exListInfo2 () ()
        (.many { connect := some [{ id := some 1 }], disconnectAll := some true } [1])
        = .ok ⟨some [1], some [1]⟩
      ∧ 1 ∈ resDisconnect (resolveNested exListInfo2 () ()
          (.many { connect := some [{ id := some 1 }], disconnectAll := some true } [1]))
      ∧ 1 ∈ resConnect (resolveNested exListInfo2 () ()
          (.many { connect := some [{ id := some 1 }], disconnectAll := some true } [1])) := by
  decide

/-- C2 (amended): the resolvers do not enforce disjointness of the two sets
when connect/create operations are present (a connected identifier may
simultaneously be disconnected); the invariant does hold for every
resolution pass — to-many or to-one — whose input carries no connect and no
create operation: the connect set of such a pass is empty. -/
theorem C2_amended_disjoint_without_connect {Ctx MState : Type}
    (a : ManyCtx Ctx MState) (b : SingleCtx Ctx MState)
    (ha1 : a.input.connect = none) (ha2 : a.input.create = none)
    (hb1 : b.input.connect = none) (hb2 : b.input.create = none) :
    (∀ r : ResolutionResult, resolveNestedMany a = .ok r →
        ∀ i : Id', i ∈ r.disconnect.getD [] → i ∉ r.connect.getD [])
      ∧ (∀ r : ResolutionResult, resolveNestedSingle b = .ok r →
          ∀ i : Id', i ∈ r.disconnect.getD [] → i ∉ r.connect.getD []) := by
  constructor
  · intro r hr i hid
    have hph : manyConnectPhase a = .ok [] := manyConnectPhase_none ha1 ha2
    unfold resolveNestedMany at hr
    rw [hph] at hr
    have := Except.ok.inj hr
    subst this
    simp
  · intro r hr i hid
    unfold resolveNestedSingle at hr
    rw [hb1, hb2] at hr
    have := Except.ok.inj hr
    subst this
    simp

theorem C2_amended_witness :
    resolveNestedMany exCtx2a = .ok ⟨some [1], some []⟩
      ∧ (1 : Id') ∉ (ResolutionResult.mk (some [1]) (some [])).connect.getD [] :=
  ⟨by decide,
   (C2_amended_disjoint_without_connect exCtx2a exCtx2b rfl rfl rfl rfl).1
     ⟨some [1], some []⟩ (by decide) 1 (by decide)⟩

/-- C3: in a to-many pass with a `disconnect` list and `disconnectAll`
falsy, the computed disconnect set equals the spec-level description
(`specManyDisconnectIds`): identifiers taken directly from id-carrying
selectors, collaborator lookups for the rest with failures and null results
silently dropped and every resolved identifier kept regardless of
current-value membership; and this branch never throws (a pass without
connect/create always succeeds). -/
theorem C3_many_disconnect_matches_spec {Ctx MState : Type} (a : ManyCtx Ctx MState)
    (h1 : a.input.disconnectAll.getD false = false)
    (sels : List Obj) (h2 : a.input.disconnect = some sels) :
    manyDisconnectIds a
        = specManyDisconnectIds sels
            (fun w => a.refList.itemQuery (.byWhere w) a.context a.refList.itemQueryName)
      ∧ (a.input.connect = none → a.input.create = none →
          resolveNestedMany a = .ok ⟨some (manyDisconnectIds a), some []⟩) := by
  constructor
  · unfold manyDisconnectIds
    rw [h1]
    simp only [Bool.false_eq_true, if_false, h2]
    unfold specManyDisconnectIds
    congr 1
    exact lookupChain_eq
  · intro hcn hcr
    have hph : manyConnectPhase a = .ok [] := manyConnectPhase_none hcn hcr
    unfold resolveNestedMany
    rw [hph]

theorem C3_witness :
    manyDisconnectIds exCtx3 = [2, 4]
      ∧ resolveNestedMany exCtx3 = .ok ⟨some [2, 4], some []⟩ :=
  ⟨((C3_many_disconnect_matches_spec exCtx3 rfl _ rfl).1).trans (by decide),
   ((C3_many_disconnect_matches_spec exCtx3 rfl _ rfl).2 rfl rfl).trans (by decide)⟩

/-- C4: in a to-one pass that enters the disconnection branch (disconnect
intent present and a current value exists), the resolved disconnect target
is placed in the result exactly when it equals the current value; a
mismatch (or an unresolved target) yields no disconnect entry, and the
disconnection branch alone never produces an error. -/
theorem C4_single_disconnect_iff_current {Ctx MState : Type} (a : SingleCtx Ctx MState)
    (cv : Id') (hcv : a.currentValue = some cv)
    (hd : (a.input.disconnect.isSome || a.input.disconnectAll.getD false) = true) :
    singleDisconnectResult a
        = (if singleIdToDisconnect a = some cv then some [cv] else none)
      ∧ (singleIdToDisconnect a ≠ some cv → singleDisconnectResult a = none)
      ∧ (a.input.connect = none → a.input.create = none →
          resolveNestedSingle a = .ok ⟨singleDisconnectResult a, none⟩) := by
  have h1 : singleDisconnectResult a
      = (if singleIdToDisconnect a = some cv then some [cv] else none) := by
    unfold singleDisconnectResult
    rw [hd, hcv]
    simp only [Option.isSome_some, Bool.and_self, if_true]
    cases hi : singleIdToDisconnect a with
    | none => simp
    | some i =>
        by_cases he : cv = i
        · subst he
          simp
        · simp [he]
          rw [if_neg (fun h : i = cv => he h.symm)]
  refine ⟨h1, fun hne => by rw [h1, if_neg hne], ?_⟩
  intro hcn hcr
  unfold resolveNestedSingle
  rw [hcn, hcr]

theorem C4_witness :
    singleIdToDisconnect exCtx4 = some 2
      ∧ singleDisconnectResult exCtx4 = none
      ∧ resolveNestedSingle exCtx4 = .ok ⟨none, none⟩ :=
  ⟨by decide,
   (C4_single_disconnect_iff_current exCtx4 1 rfl rfl).2.1 (by decide),
   ((C4_single_disconnect_iff_current exCtx4 1 rfl rfl).2.2 rfl rfl).trans (by decide)⟩

theorem settleErrorsFrom_eq {α β : Type} (action : α → Except Err β) (path : List PathSeg) :
    ∀ (ts : List α) (n : Nat),
      ((ts.map action).enumFrom n).filterMap (fun p =>
          match p.2 with
          | .error e => some ⟨e, path ++ [.idx p.1]⟩
          | .ok _ => none)
        = tagFailures action ts path n := by
  intro ts
  induction ts with
  | nil => intro n; rfl
  | cons x xs ih =>
      intro n
      cases hx : action x with
      | error e =>
          simp [List.enumFrom, List.filterMap_cons, hx, ih, tagFailures]
      | ok v =>
          simp [List.enumFrom, List.filterMap_cons, hx, ih, tagFailures]

theorem settleErrors_eq_tagFailures {α β : Type} (action : α → Except Err β)
    (ts : List α) (path : List PathSeg) :
    settleErrors (ts.map action) path = tagFailures action ts path 0 :=
  settleErrorsFrom_eq action path ts 0

theorem tagFailures_mem {α β : Type} (action : α → Except Err β) :
    ∀ (ts : List α) (base : List PathSeg) (k : Nat) (e : TaggedErr),
      e ∈ tagFailures action ts base k →
      ∃ i : Nat, ∃ h : i < ts.length,
        action (ts.get ⟨i, h⟩) = .error e.reason ∧ e.path = base ++ [.idx (k + i)] := by
  intro ts
  induction ts with
  | nil => intro base k e he; simp [tagFailures] at he
  | cons x xs ih =>
      intro base k e he
      simp only [tagFailures] at he
      rcases List.mem_append.1 he with h1 | h2
      · cases hx : action x with
        | error e0 =>
            rw [hx] at h1
            simp at h1
            subst h1
            exact ⟨0, by simp, by simpa using hx, by simp⟩
        | ok v =>
            rw [hx] at h1
            simp at h1
      · obtain ⟨i, hlt, ha, hp⟩ := ih base (k + 1) e h2
        refine ⟨i + 1, by simpa using Nat.succ_lt_succ hlt, ha, ?_⟩
        rw [hp]
        have : k + 1 + i = k + (i + 1) := by omega
        rw [this]

/-- C6: every rejected sub-operation of a to-many connect/create batch
produces exactly one aggregated-error entry, tagged with
`path ++ [index]` where `index` is the position of the item in the
original input list of that operation, and the entries appear in input
order (`tagFailures` recurses over the input list front-to-back with an
explicit position counter); when `resolveNestedMany` throws, the carried
error list is exactly the connect-batch entries followed by the
create-batch entries with paths `[localField.path, connect|create, i]`. -/
theorem C6_error_indexing {α β : Type} (action : α → Except Err β)
    (targets : Option (List α)) (path : List PathSeg) :
    (_runActions action targets path).2 = tagFailures action (targets.getD []) path 0
      ∧ (∀ e : TaggedErr, e ∈ (_runActions action targets path).2 →
          ∃ i : Nat, ∃ h : i < (targets.getD []).length,
            action ((targets.getD []).get ⟨i, h⟩) = .error e.reason
              ∧ e.path = path ++ [.idx i])
      ∧ (∀ (Ctx MState : Type) (a : ManyCtx Ctx MState) (e : WrappedError),
          resolveNestedMany a = .error e →
          e.errors
            = tagFailures (manyConnectAction a) (a.input.connect.getD [])
                [.str a.localField.path, .str "connect"] 0
              ++ tagFailures (manyCreateAction a) (a.input.create.getD [])
                [.str a.localField.path, .str "create"] 0) := by
  have hfst : (_runActions action targets path).2
      = tagFailures action (targets.getD []) path 0 :=
    settleErrors_eq_tagFailures action (targets.getD []) path
  refine ⟨hfst, ?_, ?_⟩
  · intro e he
    rw [hfst] at he
    obtain ⟨i, hlt, ha, hp⟩ := tagFailures_mem action (targets.getD []) path 0 e he
    exact ⟨i, hlt, ha, by simpa using hp⟩
  · intro Ctx MState a e he
    unfold resolveNestedMany at he
    cases hph : manyConnectPhase a with
    | ok v => rw [hph] at he; exact absurd he (by simp)
    | error e2 =>
        rw [hph] at he
        have he2 := Except.error.inj he
        subst he2
        unfold manyConnectPhase at hph
        by_cases hg : (a.input.connect.isSome || a.input.create.isSome) = true
        · rw [if_pos hg] at hph
          by_cases hemp :
              ((manyConnectSettled a).1.2 ++ (manyConnectSettled a).2.2).isEmpty = true
          · rw [if_pos hemp] at hph
            exact absurd hph (by simp)
          · rw [if_neg hemp] at hph
            have hinj := Except.error.inj hph
            have herrs : e2.errors
                = (manyConnectSettled a).1.2 ++ (manyConnectSettled a).2.2 := by
              rw [← hinj]
            rw [herrs]
            have h1 : (manyConnectSettled a).1.2
                = tagFailures (manyConnectAction a) (a.input.connect.getD [])
                    [.str a.localField.path, .str "connect"] 0 :=
              settleErrors_eq_tagFailures (manyConnectAction a)
                (a.input.connect.getD []) [.str a.localField.path, .str "connect"]
            have h2 : (manyConnectSettled a).2.2
                = tagFailures (manyCreateAction a) (a.input.create.getD [])
                    [.str a.localField.path, .str "create"] 0 :=
              settleErrors_eq_tagFailures (manyCreateAction a)
                (a.input.create.getD []) [.str a.localField.path, .str "create"]
            rw [h1, h2]
        · rw [if_neg hg] at hph
          exact absurd hph (by simp)

theorem C6_witness :
    (_runActions exAct6
        (some [{ id := some 5 }, { id := some 6 }, { id := some 7 }])
        [.str "f", .str "connect"]).2
        = [⟨"boom", [.str "f", .str "connect", .idx 1]⟩]
      ∧ ([⟨"boom", [.str "f", .str "connect", .idx 1]⟩] : List TaggedErr)
        = tagFailures (manyConnectAction exCtx1) (exCtx1.input.connect.getD [])
            [.str "f", .str "connect"] 0
          ++ tagFailures (manyCreateAction exCtx1) (exCtx1.input.create.getD [])
            [.str "f", .str "create"] 0 :=
  ⟨((C6_error_indexing exAct6
      (some [{ id := some 5 }, { id := some 6 }, { id := some 7 }])
      [.str "f", .str "connect"]).1).trans (by decide),
   (C6_error_indexing exAct6 none []).2.2 Unit Unit exCtx1
     ⟨"Unable to create and/or connect 1 T",
      [⟨"boom", [.str "f", .str "connect", .idx 1]⟩]⟩ (by decide)⟩

/-- C9: a to-one pass with `connect` performs the single lookup, and with
`create` (and no `connect`) the single create: a rejected call makes the
resolver throw `Unable to connect/create a <target>` carrying exactly one
error tagged `[localField.path, connect|create]`; a null lookup result
yields a result without a connect entry and no error; a successful call
connects the returned item id; and with `connect` present the outcome does
not depend on the collaborator create function at all. -/
theorem C9_single_connect_create {Ctx MState : Type} (a : SingleCtx Ctx MState) :
    (∀ c : Obj, a.input.connect = some c →
        (∀ e : Err,
            a.refList.itemQuery (.byId c.id) a.context a.refList.itemQueryName
                = .error e →
            resolveNestedSingle a
              = .error ⟨"Unable to connect a " ++ a.target,
                        [⟨e, [.str a.localField.path, .str "connect"]⟩]⟩)
          ∧ (a.refList.itemQuery (.byId c.id) a.context a.refList.itemQueryName
                = .ok none →
              resolveNestedSingle a = .ok ⟨singleDisconnectResult a, none⟩)
          ∧ (∀ item : Item,
              a.refList.itemQuery (.byId c.id) a.context a.refList.itemQueryName
                  = .ok (some item) →
              resolveNestedSingle a = .ok ⟨singleDisconnectResult a, some [item.id]⟩)
          ∧ (∀ cm : Obj → Ctx → MState → Except Err Item,
              resolveNestedSingle
                  { a with refList := { a.refList with createMutation := cm } }
                = resolveNestedSingle a))
      ∧ (∀ d : Obj, a.input.connect = none → a.input.create = some d →
          (∀ e : Err,
              a.refList.createMutation d a.context a.mutationState = .error e →
              resolveNestedSingle a
                = .error ⟨"Unable to create a " ++ a.target,
                          [⟨e, [.str a.localField.path, .str "create"]⟩]⟩)
            ∧ (∀ item : Item,
                a.refList.createMutation d a.context a.mutationState = .ok item →
                resolveNestedSingle a
                  = .ok ⟨singleDisconnectResult a, some [item.id]⟩)) := by
  constructor
  · intro c hc
    refine ⟨?_, ?_, ?_, ?_⟩
    · intro e hq
      simp [resolveNestedSingle, hc, hq]
    · intro hq
      simp [resolveNestedSingle, hc, hq]
    · intro item hq
      simp [resolveNestedSingle, hc, hq]
    · intro cm
      simp only [resolveNestedSingle, hc]
      rfl
  · intro d hc hd
    refine ⟨?_, ?_⟩
    · intro e hq
      simp [resolveNestedSingle, hc, hd, hq]
    · intro item hq
      simp [resolveNestedSingle, hc, hd, hq]

theorem C9_witness :
    resolveNestedSingle exCtx9
        = .error ⟨"Unable to connect a T", [⟨"boom", [.str "f", .str "connect"]⟩]⟩
      ∧ resolveNestedSingle exCtx9b = .ok ⟨none, some [99]⟩
      ∧ resolveNestedSingle
            { exCtx9 with refList :=
                { exCtx9.refList with createMutation := fun _ _ _ => .error "zzz" } }
          = resolveNestedSingle exCtx9 :=
  ⟨(((C9_single_connect_create exCtx9).1 { id := some 5 } rfl).1 "boom" rfl).trans
     (by decide),
   (((C9_single_connect_create exCtx9b).2 { fields := [("name", "Bob")] } rfl rfl).2
      ⟨99⟩ rfl).trans (by decide),
   ((C9_single_connect_create exCtx9).1 { id := some 5 } rfl).2.2.2
     (fun _ _ _ => .error "zzz")⟩
